import Mathlib

/-
Shallow embedding of the Expense-manager chat bot core:
  src/core/db.py      - persistence layer (user_states, users, transactions)
  src/core/router.py  - conversation router (handle_callback, handle_message)
The database is modelled as lists of rows; SQL CURRENT_TIMESTAMP becomes an
explicit time argument.  core/parser.py and core/ui.py are imported by the
router but are not part of the source tree we were given, so they are
modelled from the specification (each such definition says so in its doc
comment).  Monetary amounts are exact integers counted in cents, the scale
of the NUMERIC(10,2) column; chat identifiers are naturals.
-/

namespace Expense

abbrev Chars := List Char

/-- Whitespace-trim of a character list (Python str.strip). -/
def trim (s : Chars) : Chars :=
  ((s.dropWhile Char.isWhitespace).reverse.dropWhile Char.isWhitespace).reverse

/-- Split into maximal whitespace-free words; accumulator form (Python str.split()). -/
def splitWordsAux : Chars → Chars → List Chars
  | [], acc => if acc.isEmpty then [] else [acc.reverse]
  | c :: rest, acc =>
    if c.isWhitespace then
      if acc.isEmpty then splitWordsAux rest []
      else acc.reverse :: splitWordsAux rest []
    else splitWordsAux rest (c :: acc)

def splitWords (s : Chars) : List Chars := splitWordsAux s []

/-- Numeric value of a digit string. -/
def digitsVal (l : Chars) : Nat :=
  l.foldl (fun a c => 10 * a + (c.toNat - 48)) 0

/-- Modelled from the spec: the decimal-amount grammar of ExpenseParser
(spec 4.2 step 2): optional leading minus sign, optional currency symbol,
digits, optional single dot with at most two fractional digits.  The minus
sign is admitted because the spec requires step 5 (INVALID_AMOUNT for an
amount that is not positive) to fire on "-5 tea".  Amounts are represented
exactly in cents (hundredths), the scale of the NUMERIC(10,2) column, so
15.50 is the integer 1550. -/
def matchAmount (w : Chars) : Option Int :=
  let signed : Bool × Chars :=
    match w with
    | '-' :: r => (true, r)
    | _ => (false, w)
  let body : Chars :=
    match signed.2 with
    | '$' :: r => r
    | _ => signed.2
  let ip := body.takeWhile Char.isDigit
  let rest := body.dropWhile Char.isDigit
  if ip.isEmpty then none
  else
    let mag : Option Int :=
      match rest with
      | [] => some (digitsVal ip * 100 : Int)
      | '.' :: fp =>
        if fp.length ≤ 2 && fp.all Char.isDigit && !fp.isEmpty then
          some ((digitsVal ip * 100 : Int) + digitsVal fp * 10 ^ (2 - fp.length))
        else none
      | _ => none
    mag.map (fun q => if signed.1 then -q else q)

/-- Modelled from the spec: locate the first word matching the amount grammar
and remove it, keeping the words before and after it (spec 4.2 steps 2-3). -/
def extractAmount : List Chars → Option (Int × List Chars)
  | [] => none
  | w :: ws =>
    match matchAmount w with
    | some q => some (q, ws)
    | none =>
      match extractAmount ws with
      | some (q, rest) => some (q, w :: rest)
      | none => none

/-- Case-insensitive character comparison. -/
def ciEqChar (a b : Char) : Bool := a.toLower == b.toLower

/-- Does pat lead the given list, compared case-insensitively? -/
def ciLeads : Chars → Chars → Bool
  | [], _ => true
  | _ :: _, [] => false
  | p :: ps, c :: cs => ciEqChar p c && ciLeads ps cs

/-- Split at the first case-insensitive occurrence of pat, returning the
parts before and after it, or none when pat does not occur. -/
def ciBreak (pat : Chars) : Chars → Option (Chars × Chars)
  | [] => none
  | c :: rest =>
    if ciLeads pat (c :: rest) then some ([], (c :: rest).drop pat.length)
    else
      match ciBreak pat rest with
      | some (a, b) => some (c :: a, b)
      | none => none

/-- Modelled from the spec: split on every occurrence of the keyword " and "
(spec 4.2 step 4 tokenisation of the participants segment).  The fuel
argument only bounds the recursion: every ciBreak hit strictly shortens the
remaining text (the nonempty pattern is consumed), so fuel equal to the
input length is never exhausted. -/
def splitOnAndFuel : Nat → Chars → List Chars
  | 0, s => [s]
  | fuel + 1, s =>
    match ciBreak [' ', 'a', 'n', 'd', ' '] s with
    | some p => p.1 :: splitOnAndFuel fuel p.2
    | none => [s]

def splitOnAnd (s : Chars) : List Chars := splitOnAndFuel s.length s

/-- Split on every comma; accumulator form. -/
def splitOnCommaAux : Chars → Chars → List Chars
  | [], acc => [acc.reverse]
  | c :: rest, acc =>
    if c == ',' then acc.reverse :: splitOnCommaAux rest []
    else splitOnCommaAux rest (c :: acc)

/-- Modelled from the spec: tokenise the segment after " with " on commas and
the keyword " and ", trimming each token and dropping empty ones
(spec 4.2 step 4). -/
def tokenizeParticipants (s : Chars) : List String :=
  ((((splitOnCommaAux s []).flatMap splitOnAnd).map trim).filter
      (fun t => !t.isEmpty)).map List.asString

inductive ParseFailure
  | NO_AMOUNT
  | INVALID_AMOUNT
deriving DecidableEq

structure ParsedExpense where
  amount : Int
  description : String
  involved_users : List String
deriving DecidableEq

inductive ParseResult
  | ok (e : ParsedExpense)
  | failure (r : ParseFailure)
deriving DecidableEq

/-- Modelled from the spec: core/parser.py (parse_expense_text) is imported by
the router but absent from the source tree, so this follows spec 4.2 verbatim:
trim; fail NO_AMOUNT when empty or when no word matches the amount grammar;
remove the amount word; split the remainder on the case-insensitive keyword
" with " into description and participants; placeholder description "expense"
when empty; fail INVALID_AMOUNT when the amount is not positive. -/
def parse_expense_text (raw : String) : ParseResult :=
  let s := trim raw.data
  if s.isEmpty then .failure .NO_AMOUNT
  else
    match extractAmount (splitWords s) with
    | none => .failure .NO_AMOUNT
    | some (amt, restWords) =>
      let remainder := trim (List.intercalate [' '] restWords)
      let descInv : Chars × List String :=
        match ciBreak [' ', 'w', 'i', 't', 'h', ' '] remainder with
        | some p => (trim p.1, tokenizeParticipants p.2)
        | none => (remainder, [])
      if amt ≤ 0 then .failure .INVALID_AMOUNT
      else
        .ok { amount := amt
              description :=
                if descInv.1.isEmpty then "expense" else descInv.1.asString
              involved_users := descInv.2 }

/-! ## Persistence layer (src/core/db.py)

Tables become lists of rows.  SQL CURRENT_TIMESTAMP becomes an explicit
time argument threaded through the writes. -/

/-- The JSONB data column of user_states.  The router only ever stores
singleton dictionaries binding the key msg_id to a message id or to Python
None, so the column is modelled by that optional id. -/
structure StateData where
  msg_id : Option Nat
deriving DecidableEq

structure UserStateRow where
  user_id : Nat
  chat_id : Nat
  state : String
  data : StateData
  updated_at : Nat
deriving DecidableEq

structure UserRow where
  user_id : Nat
  username : String
  full_name : String
deriving DecidableEq

structure TransactionRow where
  id : Nat
  user_id : Nat
  amount : Int
  description : String
  involved_users : List String
deriving DecidableEq

structure DB where
  users : List UserRow
  user_states : List UserStateRow
  transactions : List TransactionRow
deriving DecidableEq

/-- init_db runs CREATE TABLE IF NOT EXISTS for the three tables; in the
model the tables always exist, so schema initialisation is the identity. -/
def init_db (db : DB) : DB := db

/-- get_user_state: SELECT state, data FROM user_states WHERE user_id = ...;
returns the default DASHBOARD record when the user has no row. -/
def get_user_state (db : DB) (uid : Nat) : String × StateData :=
  match db.user_states.find? (fun r => r.user_id == uid) with
  | some r => (r.state, r.data)
  | none => ("DASHBOARD", ⟨none⟩)

/-- update_user_state: INSERT ... ON CONFLICT (user_id) DO UPDATE, replacing
chat_id, state, data and stamping updated_at with the current time t.
(The Python default data=None becomes the empty dict before the INSERT;
callers in the model always pass the data explicitly.) -/
def update_user_state (db : DB) (uid chatid : Nat) (st : String) (d : StateData)
    (t : Nat) : DB :=
  { db with
    user_states :=
      if db.user_states.any (fun r => r.user_id == uid) then
        db.user_states.map (fun r =>
          if r.user_id == uid then
            { r with chat_id := chatid, state := st, data := d, updated_at := t }
          else r)
      else
        db.user_states ++ [⟨uid, chatid, st, d, t⟩] }

/-- add_transaction: INSERT INTO transactions (user_id, amount, description,
involved_users); SERIAL id modelled as one past the current row count.
(The Python guard involved = involved if involved else [] is the identity
on lists, since both None and [] map to [].) -/
def add_transaction (db : DB) (uid : Nat) (amount : Int) (descr : String)
    (involved : List String) : DB :=
  { db with
    transactions :=
      db.transactions ++ [⟨db.transactions.length + 1, uid, amount, descr, involved⟩] }

/-- The FROM transactions t JOIN users u ON t.user_id = u.user_id rows of
get_balances, projected to (username, amount).  users.user_id is the primary
key, so the lookup finds at most one matching user row; transactions whose
payer is not a registered user are dropped by the inner join. -/
def joinedRows (db : DB) : List (String × Int) :=
  db.transactions.filterMap (fun tx =>
    (db.users.find? (fun u => u.user_id == tx.user_id)).map
      (fun u => (u.username, tx.amount)))

/-- GROUP BY u.username with SUM(t.amount): one entry per distinct name, in
order of first occurrence.  The SQL query has no ORDER BY clause, so the
model fixes the first-occurrence order as its deterministic reading of the
unspecified result order.  The fuel argument only bounds the recursion:
every step recurses on a filtered (hence no longer) strict tail, so fuel
equal to the input length is never exhausted. -/
def groupTotalsFuel : Nat → List (String × Int) → List (String × Int)
  | 0, _ => []
  | _, [] => []
  | fuel + 1, (n, a) :: rest =>
    (n, a + ((rest.filter (fun p => p.1 == n)).map Prod.snd).sum)
      :: groupTotalsFuel fuel (rest.filter (fun p => p.1 != n))

def groupTotals (l : List (String × Int)) : List (String × Int) :=
  groupTotalsFuel l.length l

/-- get_balances: SELECT u.username, SUM(t.amount) ... GROUP BY u.username. -/
def get_balances (db : DB) : List (String × Int) :=
  groupTotals (joinedRows db)

/-- Modelled from the spec: register_user is imported by the router from
core.db but is not among the definitions in the given src/core/db.py; spec
section 6 lists registerParticipant(id, name) over a participants table
whose id is the primary key, so it is an upsert of (id, username, full_name). -/
def register_user (db : DB) (uid : Nat) (username full_name : String) : DB :=
  { db with
    users :=
      if db.users.any (fun u => u.user_id == uid) then
        db.users.map (fun u =>
          if u.user_id == uid then
            { u with username := username, full_name := full_name }
          else u)
      else
        db.users ++ [⟨uid, username, full_name⟩] }

/-- Modelled from the spec: get_all_users is imported by the router from
core.db but is not among the definitions in the given src/core/db.py; spec
section 6 lists listParticipants() returning the participant sequence. -/
def get_all_users (db : DB) : List UserRow := db.users

/-! ## Conversation router (src/core/router.py)

Each handler is a pure function of the inbound event, the database and the
current time; besides the updated database it returns the trace of
update_user_state calls it made and the outbound messaging effects, so that
claims about the transition and about what was sent are statable. -/

structure CallbackEvent where
  user_id : Nat
  chat_id : Nat
  message_id : Nat
  data : String
  username : Option String
  full_name : Option String
deriving DecidableEq

/-- One update_user_state call made during a turn (its four data arguments). -/
structure StateWrite where
  user_id : Nat
  chat_id : Nat
  state : String
  data : StateData
deriving DecidableEq

inductive Outbound
  | toast (text : String) (show_alert : Bool)
  | editMessage (chat_id message_id : Nat) (text : String)
  | sendMessage (chat_id message_id : Nat) (text : String)
  | deleteOwn
deriving DecidableEq

structure TurnResult where
  db : DB
  state_writes : List StateWrite
  out : List Outbound
deriving DecidableEq

/-- Modelled from the spec: core/ui.py is not in the source tree; the screen
texts are opaque constants whose exact markup no claim depends on. -/
def Views.WELCOME : String := "WELCOME"

/-- Modelled from the spec: prompt screen text, opaque (core/ui.py absent). -/
def Views.AWAITING_INPUT : String := "AWAITING_INPUT_PROMPT"

/-- Modelled from the spec: settings screen text, opaque (core/ui.py absent). -/
def Views.SETTINGS : String := "SETTINGS"

/-- Modelled from the spec: the default loading toast text (core/ui.py absent). -/
def TOASTS_loading : String := "loading"

/-- Modelled from the spec: renderTree of core/ui.py is not in the source
tree; the claims only use that the rendering is a deterministic function of
the totals list. -/
def generate_ascii_tree (balances : List (String × Int)) : String :=
  String.intercalate "\n" (balances.map (fun p => p.1 ++ " " ++ toString p.2))

/-- The member list text built inline in the btn_members / btn_join branches. -/
def memberList (users : List UserRow) : String :=
  String.intercalate "\n" (users.map (fun u => "👤 <b>" ++ u.username ++ "</b>"))

/-- Stand-in for the Python float formatting of the recorded amount; no claim
inspects the rendered text. -/
def fmtAmount (q : Int) : String := toString q

/-- The toast_msg chosen at the top of handle_callback before routing. -/
def callback_toast (q : CallbackEvent) : Outbound :=
  if q.data == "btn_join" then .toast "📝 Signing the ledger..." false
  else .toast TOASTS_loading false

/-- handle_callback of src/core/router.py: the if/elif chain on query.data.
The local aliases user_id, chat_id of the Python code are inlined as the
event projections.  Unmatched actions fall through with no effect beyond
the initial toast. -/
def handle_callback (q : CallbackEvent) (db : DB) (t : Nat) : TurnResult :=
  if q.data == "btn_back_home" then
    { db := update_user_state db q.user_id q.chat_id "DASHBOARD" ⟨some q.message_id⟩ t
      state_writes := [⟨q.user_id, q.chat_id, "DASHBOARD", ⟨some q.message_id⟩⟩]
      out := [callback_toast q, .editMessage q.chat_id q.message_id Views.WELCOME] }
  else if q.data == "btn_finances" then
    let tree := generate_ascii_tree (get_balances db)
    { db := db
      state_writes := []
      out := [callback_toast q,
              .editMessage q.chat_id q.message_id ("<b>💰 Finances</b>\n\n" ++ tree)] }
  else if q.data == "btn_refresh_finances" then
    let tree := generate_ascii_tree (get_balances db)
    { db := db
      state_writes := []
      out := [callback_toast q, .editMessage q.chat_id q.message_id
                ("<b>💰 Finances</b>\n\n" ++ tree ++ "\n\n<i>Last updated: Just now</i>")] }
  else if q.data == "btn_add_expense" then
    { db := update_user_state db q.user_id q.chat_id "AWAITING_INPUT" ⟨some q.message_id⟩ t
      state_writes := [⟨q.user_id, q.chat_id, "AWAITING_INPUT", ⟨some q.message_id⟩⟩]
      out := [callback_toast q, .editMessage q.chat_id q.message_id Views.AWAITING_INPUT] }
  else if q.data == "btn_members" then
    let users := get_all_users db
    let text :=
      if users.isEmpty then
        "<b>👥 Guild Members</b>\n\n<i>No members found. Be the first to join!</i>"
      else "<b>👥 Guild Members</b>\n\n" ++ memberList users
    { db := db
      state_writes := []
      out := [callback_toast q, .editMessage q.chat_id q.message_id text] }
  else if q.data == "btn_join" then
    let username := q.username.getD ("User" ++ toString q.user_id)
    let full_name := q.full_name.getD "Unknown"
    let db1 := register_user db q.user_id username full_name
    let users := get_all_users db1
    { db := db1
      state_writes := []
      out := [callback_toast q, .toast "✅ You have joined the Guild!" true,
              .editMessage q.chat_id q.message_id
                ("<b>👥 Guild Members</b>\n\n" ++ memberList users)] }
  else if q.data == "btn_settings" then
    { db := db
      state_writes := []
      out := [callback_toast q, .editMessage q.chat_id q.message_id Views.SETTINGS] }
  else if q.data == "btn_history" then
    { db := db
      state_writes := []
      out := [callback_toast q, .toast "📜 Detailed history is coming in v1.1!" true] }
  else if q.data == "btn_noop" then
    { db := db
      state_writes := []
      out := [callback_toast q, .toast "Feature coming soon!" false] }
  else if q.data == "btn_leave" then
    { db := db
      state_writes := []
      out := [callback_toast q, .toast "🚫 Leaving is disabled in this version." true] }
  else
    { db := db, state_writes := [], out := [callback_toast q] }

/-- The success text edited into the anchor after a recorded expense. -/
def success_text (parsed : ParsedExpense) : String :=
  "<b>✅ Recorded:</b> $" ++ fmtAmount parsed.amount ++ " for "
    ++ parsed.description ++ "\n\n" ++ Views.WELCOME

/-- The re-prompt text edited into the anchor after a failed parse. -/
def parse_fail_text : String :=
  "⚠️ <b>Could not parse amount.</b>\nTry again: 20 lunch\n\n" ++ Views.AWAITING_INPUT

/-- The screen update of the successful-parse branch: edit the anchor when
one is known (Python treats both None and 0 as no anchor), falling back to
sending a fresh message when the edit fails. -/
def success_screen (chatid : Nat) (dmi : Option Nat) (new_msg_id : Nat) (edit_ok : Bool)
    (txt : String) : List Outbound :=
  match dmi with
  | some mid =>
    if mid == 0 then []
    else if edit_ok then [.editMessage chatid mid txt]
    else [.sendMessage chatid new_msg_id txt]
  | none => []

/-- The screen update of the failed-parse branch: edit the anchor when one is
known; a failing edit is swallowed. -/
def failure_screen (chatid : Nat) (dmi : Option Nat) (edit_ok : Bool)
    (txt : String) : List Outbound :=
  match dmi with
  | some mid =>
    if mid == 0 then []
    else if edit_ok then [.editMessage chatid mid txt]
    else []
  | none => []

/-- handle_message of src/core/router.py.  new_msg_id is the id the messaging
collaborator assigns when a fresh message is sent; edit_ok says whether an
edit of the anchor message succeeds (the try/except around edit calls).  The
local variables user_record, state, state_data, dashboard_msg_id of the
Python code are inlined as projections of the (pure) get_user_state call. -/
def handle_message (uid chatid : Nat) (text : String) (db : DB) (t : Nat)
    (new_msg_id : Nat) (edit_ok : Bool) : TurnResult :=
  if (get_user_state db uid).1 == "AWAITING_INPUT" then
    match parse_expense_text text with
    | .ok parsed =>
      { db := update_user_state
                (add_transaction db uid parsed.amount parsed.description
                  parsed.involved_users)
                uid chatid "DASHBOARD" ⟨(get_user_state db uid).2.msg_id⟩ t
        state_writes := [⟨uid, chatid, "DASHBOARD", ⟨(get_user_state db uid).2.msg_id⟩⟩]
        out := [.deleteOwn] ++ success_screen chatid (get_user_state db uid).2.msg_id
                 new_msg_id edit_ok (success_text parsed) }
    | .failure _ =>
      { db := db
        state_writes := []
        out := [.deleteOwn] ++ failure_screen chatid (get_user_state db uid).2.msg_id
                 edit_ok parse_fail_text }
  else if text == "/start" then
    { db := update_user_state (init_db db) uid chatid "DASHBOARD" ⟨some new_msg_id⟩ t
      state_writes := [⟨uid, chatid, "DASHBOARD", ⟨some new_msg_id⟩⟩]
      out := [.deleteOwn] ++ [.sendMessage chatid new_msg_id Views.WELCOME] }
  else
    { db := db, state_writes := [], out := [.deleteOwn] }

/-- Does the outbound effect send a new message? -/
def isSendMessage : Outbound → Bool
  | .sendMessage _ _ _ => true
  | _ => false

/-- Is the list sorted by strictly descending total, with ties broken by
ascending name?  This is the ordering the specification promises for the
rendered balances. -/
def isSortedDescByTotal : List (String × Int) → Bool
  | [] => true
  | [_] => true
  | a :: b :: rest =>
    (decide (b.2 < a.2) || (a.2 == b.2 && decide (a.1 < b.1)))
      && isSortedDescByTotal (b :: rest)

/-! ## Concrete databases used by witnesses and counterexamples -/

def emptyDB : DB := ⟨[], [], []⟩

/-- A database whose single user 1 (chat 10) is awaiting expense input with
anchor message 5. -/
def exAwait : DB := ⟨[], [⟨1, 10, "AWAITING_INPUT", ⟨some 5⟩, 0⟩], []⟩

/-- A database whose single user 1 (chat 10) rests on the dashboard with
anchor message 5. -/
def exDash : DB := ⟨[], [⟨1, 10, "DASHBOARD", ⟨some 5⟩, 0⟩], []⟩

/-- Payers A (user 1, amounts 10.00 then 5.00, i.e. 1000 and 500 cents) and B
(user 2, amount 7.00 = 700 cents), with A's
transactions first in the ledger. -/
def exDB_Afirst : DB :=
  ⟨[⟨1, "A", "A"⟩, ⟨2, "B", "B"⟩], [],
   [⟨1, 1, 1000, "y", []⟩, ⟨2, 1, 500, "z", []⟩, ⟨3, 2, 700, "x", []⟩]⟩

/-- The same ledger with B's transaction first. -/
def exDB_Bfirst : DB :=
  ⟨[⟨1, "A", "A"⟩, ⟨2, "B", "B"⟩], [],
   [⟨1, 2, 700, "x", []⟩, ⟨2, 1, 1000, "y", []⟩, ⟨3, 1, 500, "z", []⟩]⟩

/-! ## Helper lemmas about the state store -/

theorem upsert_rows_find (uid chatid : Nat) (st : String) (d : StateData) (t : Nat) :
    ∀ l : List UserStateRow,
      ∃ r, (if l.any (fun x => x.user_id == uid) then
              l.map (fun x =>
                if x.user_id == uid then
                  { x with chat_id := chatid, state := st, data := d, updated_at := t }
                else x)
            else l ++ [⟨uid, chatid, st, d, t⟩]).find? (fun x => x.user_id == uid) = some r
        ∧ r.state = st ∧ r.data = d := by
  intro l
  induction l with
  | nil =>
    refine ⟨⟨uid, chatid, st, d, t⟩, ?_, rfl, rfl⟩
    simp [List.find?]
  | cons r rest ih =>
    by_cases h : (r.user_id == uid) = true
    · refine ⟨{ r with chat_id := chatid, state := st, data := d, updated_at := t },
        ?_, rfl, rfl⟩
      have hany : ((r :: rest).any (fun x => x.user_id == uid)) = true := by
        simp [List.any_cons, h]
      rw [if_pos hany, List.map_cons, if_pos h]
      exact List.find?_cons_of_pos _ h
    · have hf : (r.user_id == uid) = false := by
        cases hb : (r.user_id == uid) with
        | false => rfl
        | true => exact absurd hb h
      by_cases h2 : (rest.any fun x => x.user_id == uid) = true
      · have hany : ((r :: rest).any (fun x => x.user_id == uid)) = true := by
          simp [List.any_cons, h2]
        rw [if_pos h2] at ih
        obtain ⟨r0, hfind, hs, hd2⟩ := ih
        refine ⟨r0, ?_, hs, hd2⟩
        rw [if_pos hany, List.map_cons, if_neg h, List.find?_cons_of_neg]
        · exact hfind
        · exact h
      · have h2f : (rest.any fun x => x.user_id == uid) = false := by
          cases hb : (rest.any fun x => x.user_id == uid) with
          | false => rfl
          | true => exact absurd hb h2
        have hany : ¬ (((r :: rest).any (fun x => x.user_id == uid)) = true) := by
          simp [List.any_cons, hf, h2f]
        rw [if_neg h2] at ih
        obtain ⟨r0, hfind, hs, hd2⟩ := ih
        refine ⟨r0, ?_, hs, hd2⟩
        rw [if_neg hany, List.cons_append, List.find?_cons_of_neg]
        · exact hfind
        · exact h

theorem get_user_state_update (db : DB) (uid chatid : Nat) (st : String) (d : StateData)
    (t : Nat) :
    get_user_state (update_user_state db uid chatid st d t) uid = (st, d) := by
  obtain ⟨r, hfind, hs, hd2⟩ := upsert_rows_find uid chatid st d t db.user_states
  simp only [get_user_state, update_user_state]
  rw [hfind]
  show (r.state, r.data) = (st, d)
  rw [hs, hd2]

theorem upsert_rows_count (uid chatid : Nat) (st : String) (d : StateData) (t : Nat)
    (l : List UserStateRow) (hpk : (l.filter (fun x => x.user_id == uid)).length ≤ 1) :
    ((if l.any (fun x => x.user_id == uid) then
        l.map (fun x =>
          if x.user_id == uid then
            { x with chat_id := chatid, state := st, data := d, updated_at := t }
          else x)
      else l ++ [⟨uid, chatid, st, d, t⟩]).filter (fun x => x.user_id == uid)).length = 1 := by
  by_cases hany : (l.any (fun x => x.user_id == uid)) = true
  · rw [if_pos hany]
    have hpf : (fun x : UserStateRow => x.user_id == uid) ∘
        (fun x : UserStateRow =>
          if x.user_id == uid then
            { x with chat_id := chatid, state := st, data := d, updated_at := t }
          else x) = fun x : UserStateRow => x.user_id == uid := by
      funext x
      by_cases hx : (x.user_id == uid) = true
      · simp only [Function.comp, if_pos hx]
      · simp only [Function.comp, if_neg hx]
    have hlen : ((l.map (fun x =>
        if x.user_id == uid then
          { x with chat_id := chatid, state := st, data := d, updated_at := t }
        else x)).filter (fun x => x.user_id == uid)).length
          = (l.filter (fun x => x.user_id == uid)).length := by
      rw [← List.countP_eq_length_filter, ← List.countP_eq_length_filter,
        List.countP_map, hpf]
    obtain ⟨x, hxl, hxp⟩ := List.any_eq_true.mp hany
    have hmem : x ∈ l.filter (fun x => x.user_id == uid) := List.mem_filter.mpr ⟨hxl, hxp⟩
    have hpos : 0 < (l.filter (fun x => x.user_id == uid)).length :=
      List.length_pos.mpr (List.ne_nil_of_mem hmem)
    omega
  · rw [if_neg hany]
    have hnil : l.filter (fun x => x.user_id == uid) = [] := by
      rw [List.filter_eq_nil_iff]
      intro x hx hxp
      exact hany (List.any_eq_true.mpr ⟨x, hx, hxp⟩)
    rw [List.filter_append, hnil]
    simp

/-! ## Helper lemmas about balance grouping -/

theorem groupTotalsFuel_keys (n : String) :
    ∀ (fuel : Nat) (l : List (String × Int)), l.length ≤ fuel →
      (n ∈ (groupTotalsFuel fuel l).map Prod.fst ↔ n ∈ l.map Prod.fst) := by
  intro fuel
  induction fuel with
  | zero =>
    intro l hl
    have hnil : l = [] := List.eq_nil_of_length_eq_zero (Nat.le_zero.mp hl)
    subst hnil
    simp [groupTotalsFuel]
  | succ fuel ih =>
    intro l hl
    cases l with
    | nil => simp [groupTotalsFuel]
    | cons p rest =>
      obtain ⟨n0, a⟩ := p
      have hfl : (rest.filter (fun q => q.1 != n0)).length ≤ fuel := by
        have hle := List.length_filter_le (fun q => q.1 != n0) rest
        simp only [List.length_cons] at hl
        omega
      simp only [groupTotalsFuel, List.map_cons, List.mem_cons]
      rw [ih _ hfl]
      constructor
      · rintro (h | h)
        · exact Or.inl h
        · obtain ⟨q, hq, rfl⟩ := List.mem_map.mp h
          exact Or.inr (List.mem_map.mpr ⟨q, (List.mem_filter.mp hq).1, rfl⟩)
      · rintro (h | h)
        · exact Or.inl h
        · by_cases hn : n = n0
          · exact Or.inl hn
          · obtain ⟨q, hq, rfl⟩ := List.mem_map.mp h
            refine Or.inr (List.mem_map.mpr ⟨q, List.mem_filter.mpr ⟨hq, ?_⟩, rfl⟩)
            exact bne_iff_ne.mpr hn

theorem groupTotalsFuel_keys_nodup :
    ∀ (fuel : Nat) (l : List (String × Int)), l.length ≤ fuel →
      ((groupTotalsFuel fuel l).map Prod.fst).Nodup := by
  intro fuel
  induction fuel with
  | zero =>
    intro l hl
    have hnil : l = [] := List.eq_nil_of_length_eq_zero (Nat.le_zero.mp hl)
    subst hnil
    simp [groupTotalsFuel]
  | succ fuel ih =>
    intro l hl
    cases l with
    | nil => simp [groupTotalsFuel]
    | cons p rest =>
      obtain ⟨n0, a⟩ := p
      have hfl : (rest.filter (fun q => q.1 != n0)).length ≤ fuel := by
        have hle := List.length_filter_le (fun q => q.1 != n0) rest
        simp only [List.length_cons] at hl
        omega
      simp only [groupTotalsFuel, List.map_cons, List.nodup_cons]
      refine ⟨?_, ih _ hfl⟩
      intro hmem
      rw [groupTotalsFuel_keys n0 fuel _ hfl] at hmem
      obtain ⟨q, hq, hq1⟩ := List.mem_map.mp hmem
      have hne := (List.mem_filter.mp hq).2
      rw [hq1] at hne
      simp at hne

theorem groupTotalsFuel_values :
    ∀ (fuel : Nat) (l : List (String × Int)) (e : String × Int), l.length ≤ fuel →
      e ∈ groupTotalsFuel fuel l →
      e.2 = ((l.filter (fun q => q.1 == e.1)).map Prod.snd).sum := by
  intro fuel
  induction fuel with
  | zero =>
    intro l e hl hm
    have hnil : l = [] := List.eq_nil_of_length_eq_zero (Nat.le_zero.mp hl)
    subst hnil
    simp [groupTotalsFuel] at hm
  | succ fuel ih =>
    intro l e hl hm
    cases l with
    | nil => simp [groupTotalsFuel] at hm
    | cons p rest =>
      obtain ⟨n0, a⟩ := p
      have hfl : (rest.filter (fun q => q.1 != n0)).length ≤ fuel := by
        have hle := List.length_filter_le (fun q => q.1 != n0) rest
        simp only [List.length_cons] at hl
        omega
      simp only [groupTotalsFuel, List.mem_cons] at hm
      rcases hm with rfl | hm
      · simp [List.filter_cons, beq_self_eq_true]
      · have he1 : e.1 ≠ n0 := by
          have hkey : e.1 ∈ (groupTotalsFuel fuel
              (rest.filter (fun q => q.1 != n0))).map Prod.fst :=
            List.mem_map.mpr ⟨e, hm, rfl⟩
          rw [groupTotalsFuel_keys e.1 fuel _ hfl] at hkey
          obtain ⟨q, hq, hq1⟩ := List.mem_map.mp hkey
          intro hcontr
          have hne := (List.mem_filter.mp hq).2
          rw [hq1, hcontr] at hne
          simp at hne
        rw [ih _ e hfl hm]
        congr 1
        congr 1
        rw [List.filter_cons]
        rw [if_neg (by simpa using Ne.symm he1)]
        rw [List.filter_filter]
        apply List.filter_congr
        intro q hq
        by_cases hq1 : (q.1 == e.1) = true
        · have : q.1 ≠ n0 := by
            rw [beq_iff_eq.mp hq1]
            exact he1
          simp [hq1, this]
        · simp [hq1]

/-! ## Claim theorems -/

/-- C8: calling update_user_state twice with identical arguments leaves
get_user_state returning the same single record as after one call: no
duplicate row is created and the observable state and data do not drift,
even though the two calls stamp different update times. -/
theorem C8_set_state_idempotent (db : DB) (uid chatid : Nat) (st : String) (d : StateData)
    (t1 t2 : Nat)
    (hpk : (db.user_states.filter (fun r => r.user_id == uid)).length ≤ 1) :
    get_user_state
        (update_user_state (update_user_state db uid chatid st d t1) uid chatid st d t2) uid
      = get_user_state (update_user_state db uid chatid st d t1) uid
    ∧ (((update_user_state (update_user_state db uid chatid st d t1) uid chatid st d
          t2).user_states.filter (fun r => r.user_id == uid)).length = 1)
    ∧ (((update_user_state db uid chatid st d t1).user_states.filter
          (fun r => r.user_id == uid)).length = 1) := by
  have h1 : ((update_user_state db uid chatid st d t1).user_states.filter
      (fun r => r.user_id == uid)).length = 1 :=
    upsert_rows_count uid chatid st d t1 db.user_states hpk
  have h2 : ((update_user_state (update_user_state db uid chatid st d t1) uid chatid st d
      t2).user_states.filter (fun r => r.user_id == uid)).length = 1 :=
    upsert_rows_count uid chatid st d t2
      (update_user_state db uid chatid st d t1).user_states (le_of_eq h1)
  exact ⟨by rw [get_user_state_update, get_user_state_update], h2, h1⟩

theorem C8_witness :
    ((emptyDB.user_states.filter (fun r => r.user_id == 1)).length ≤ 1)
    ∧ get_user_state
        (update_user_state (update_user_state emptyDB 1 2 "DASHBOARD" ⟨none⟩ 0) 1 2
          "DASHBOARD" ⟨none⟩ 5) 1
      = get_user_state (update_user_state emptyDB 1 2 "DASHBOARD" ⟨none⟩ 0) 1 :=
  ⟨by decide, (C8_set_state_idempotent emptyDB 1 2 "DASHBOARD" ⟨none⟩ 0 5 (by decide)).1⟩

/-- C9: get_user_state never fails with not-found: when the user has no row
it returns the default DASHBOARD record with empty extra data. -/
theorem C9_get_state_default (db : DB) (uid : Nat)
    (h : ∀ r ∈ db.user_states, r.user_id ≠ uid) :
    get_user_state db uid = ("DASHBOARD", ⟨none⟩) := by
  have hnone : db.user_states.find? (fun r => r.user_id == uid) = none := by
    rw [List.find?_eq_none]
    intro r hr
    simpa using h r hr
  simp only [get_user_state]
  rw [hnone]

theorem C9_witness : get_user_state emptyDB 1 = ("DASHBOARD", ⟨none⟩) :=
  C9_get_state_default emptyDB 1 (by intro r hr; exact absurd hr (List.not_mem_nil r))

/-- C5: for a user in phase DASHBOARD, the add_expense button press stores
AWAITING_INPUT with the pressed message id as the anchor in extra. -/
theorem C5_add_expense_transition (q : CallbackEvent) (db : DB) (t : Nat)
    (hd : q.data = "btn_add_expense")
    (hphase : (get_user_state db q.user_id).1 = "DASHBOARD") :
    get_user_state (handle_callback q db t).db q.user_id
      = ("AWAITING_INPUT", ⟨some q.message_id⟩) := by
  obtain ⟨uid, chatid, mid, dataStr, un, fn⟩ := q
  simp only at hd
  subst hd
  exact get_user_state_update db uid chatid "AWAITING_INPUT" ⟨some mid⟩ t

theorem C5_witness :
    (((⟨1, 10, 5, "btn_add_expense", none, none⟩ : CallbackEvent)).data = "btn_add_expense")
    ∧ (get_user_state exDash 1).1 = "DASHBOARD"
    ∧ get_user_state (handle_callback ⟨1, 10, 5, "btn_add_expense", none, none⟩ exDash 3).db 1
        = ("AWAITING_INPUT", ⟨some 5⟩) :=
  ⟨rfl, by decide,
    C5_add_expense_transition ⟨1, 10, 5, "btn_add_expense", none, none⟩ exDash 3 rfl
      (by decide)⟩

/-- C10: handle_callback reads no stored conversation state: the sequence of
update_user_state calls it performs is a function of the event alone, so two
runs over different databases (in particular different stored phases) perform
the same transition, and every transition available from DASHBOARD fires
identically when the stored phase is AWAITING_INPUT. -/
theorem C10_callback_writes_independent (q : CallbackEvent) (db1 db2 : DB) (t1 t2 : Nat) :
    (handle_callback q db1 t1).state_writes = (handle_callback q db2 t2).state_writes := by
  unfold handle_callback
  by_cases h1 : (q.data == "btn_back_home") = true
  · rw [if_pos h1, if_pos h1]
  · rw [if_neg h1, if_neg h1]
    by_cases h2 : (q.data == "btn_finances") = true
    · rw [if_pos h2, if_pos h2]
    · rw [if_neg h2, if_neg h2]
      by_cases h3 : (q.data == "btn_refresh_finances") = true
      · rw [if_pos h3, if_pos h3]
      · rw [if_neg h3, if_neg h3]
        by_cases h4 : (q.data == "btn_add_expense") = true
        · rw [if_pos h4, if_pos h4]
        · rw [if_neg h4, if_neg h4]
          by_cases h5 : (q.data == "btn_members") = true
          · rw [if_pos h5, if_pos h5]
          · rw [if_neg h5, if_neg h5]
            by_cases h6 : (q.data == "btn_join") = true
            · rw [if_pos h6, if_pos h6]
            · rw [if_neg h6, if_neg h6]
              by_cases h7 : (q.data == "btn_settings") = true
              · rw [if_pos h7, if_pos h7]
              · rw [if_neg h7, if_neg h7]
                by_cases h8 : (q.data == "btn_history") = true
                · rw [if_pos h8, if_pos h8]
                · rw [if_neg h8, if_neg h8]
                  by_cases h9 : (q.data == "btn_noop") = true
                  · rw [if_pos h9, if_pos h9]
                  · rw [if_neg h9, if_neg h9]
                    by_cases h10 : (q.data == "btn_leave") = true
                    · rw [if_pos h10, if_pos h10]
                    · rw [if_neg h10, if_neg h10]

/-- C1 counterexample: a user whose stored phase is AWAITING_INPUT who sends
the text "/start" is not reset to the dashboard, because handle_message
checks the AWAITING_INPUT branch before the "/start" comparison: the text
goes to the expense parser (which fails on it), the stored state stays
AWAITING_INPUT, no state write happens and no new screen message is sent. -/
theorem C1_counterexample :
    (get_user_state (handle_message 1 10 "/start" exAwait 7 99 true).db 1).1
        = "AWAITING_INPUT"
    ∧ (handle_message 1 10 "/start" exAwait 7 99 true).state_writes = []
    ∧ ((handle_message 1 10 "/start" exAwait 7 99 true).out.any isSendMessage) = false := by
  decide

/-- C1 amended: for every stored conversation state whose phase is not
AWAITING_INPUT (including the default record of an unknown user), receiving
the text "/start" transitions the user to DASHBOARD, sends a new screen
message and stores that message id as the anchor in the state's extra data. -/
theorem C1_start_resets_to_dashboard (db : DB) (uid chatid t new_msg_id : Nat)
    (edit_ok : Bool)
    (h : (get_user_state db uid).1 ≠ "AWAITING_INPUT") :
    get_user_state (handle_message uid chatid "/start" db t new_msg_id edit_ok).db uid
        = ("DASHBOARD", ⟨some new_msg_id⟩)
    ∧ Outbound.sendMessage chatid new_msg_id Views.WELCOME
        ∈ (handle_message uid chatid "/start" db t new_msg_id edit_ok).out
    ∧ (handle_message uid chatid "/start" db t new_msg_id edit_ok).state_writes
        = [⟨uid, chatid, "DASHBOARD", ⟨some new_msg_id⟩⟩] := by
  have hb : ¬ (((get_user_state db uid).1 == "AWAITING_INPUT") = true) := by
    rw [beq_eq_false_iff_ne.mpr h]
    exact Bool.false_ne_true
  unfold handle_message
  rw [if_neg hb, if_pos (beq_self_eq_true "/start")]
  exact ⟨get_user_state_update (init_db db) uid chatid "DASHBOARD" ⟨some new_msg_id⟩ t,
    by simp, rfl⟩

theorem C1_witness :
    ((get_user_state emptyDB 1).1 ≠ "AWAITING_INPUT")
    ∧ get_user_state (handle_message 1 10 "/start" emptyDB 7 99 true).db 1
        = ("DASHBOARD", ⟨some 99⟩) :=
  ⟨by decide, (C1_start_resets_to_dashboard emptyDB 1 10 7 99 true (by decide)).1⟩

/-- C2: for a user whose stored state is AWAITING_INPUT, a text on which the
expense parser succeeds transitions the state to DASHBOARD and appends
exactly one new Transaction whose payer is the user and whose amount,
description and involved participants equal the parser output. -/
theorem C2_parse_success_records (db : DB) (uid chatid t new_msg_id : Nat)
    (edit_ok : Bool) (text : String) (p : ParsedExpense)
    (hstate : (get_user_state db uid).1 = "AWAITING_INPUT")
    (hparse : parse_expense_text text = .ok p) :
    (get_user_state (handle_message uid chatid text db t new_msg_id edit_ok).db uid).1
        = "DASHBOARD"
    ∧ (handle_message uid chatid text db t new_msg_id edit_ok).db.transactions
        = db.transactions
            ++ [⟨db.transactions.length + 1, uid, p.amount, p.description,
                  p.involved_users⟩] := by
  have hb : ((get_user_state db uid).1 == "AWAITING_INPUT") = true := by
    rw [hstate]
    exact beq_self_eq_true _
  unfold handle_message
  rw [if_pos hb, hparse]
  exact ⟨congrArg Prod.fst
      (get_user_state_update
        (add_transaction db uid p.amount p.description p.involved_users)
        uid chatid "DASHBOARD" ⟨(get_user_state db uid).2.msg_id⟩ t),
    rfl⟩

theorem C2_witness :
    ((get_user_state exAwait 1).1 = "AWAITING_INPUT")
    ∧ (parse_expense_text "20 lunch" = .ok ⟨2000, "lunch", []⟩)
    ∧ (handle_message 1 10 "20 lunch" exAwait 3 99 true).db.transactions
        = exAwait.transactions ++ [⟨1, 1, 2000, "lunch", []⟩] :=
  ⟨by decide, by decide,
    (C2_parse_success_records exAwait 1 10 3 99 true "20 lunch" ⟨2000, "lunch", []⟩
      (by decide) (by decide)).2⟩

/-- C3: for a user whose stored state is AWAITING_INPUT, a text on which the
expense parser fails leaves the whole database unchanged: the stored phase
and extra data stay as they were (still AWAITING_INPUT), no state write is
performed and no Transaction is appended. -/
theorem C3_parse_failure_keeps_state (db : DB) (uid chatid t new_msg_id : Nat)
    (edit_ok : Bool) (text : String) (e : ParseFailure)
    (hstate : (get_user_state db uid).1 = "AWAITING_INPUT")
    (hfail : parse_expense_text text = .failure e) :
    (handle_message uid chatid text db t new_msg_id edit_ok).db = db
    ∧ (get_user_state (handle_message uid chatid text db t new_msg_id edit_ok).db uid).1
        = "AWAITING_INPUT"
    ∧ (handle_message uid chatid text db t new_msg_id edit_ok).state_writes = [] := by
  have hb : ((get_user_state db uid).1 == "AWAITING_INPUT") = true := by
    rw [hstate]
    exact beq_self_eq_true _
  unfold handle_message
  rw [if_pos hb, hfail]
  exact ⟨rfl, hstate, rfl⟩

theorem C3_witness :
    ((get_user_state exAwait 1).1 = "AWAITING_INPUT")
    ∧ (parse_expense_text "lunch" = .failure .NO_AMOUNT)
    ∧ (handle_message 1 10 "lunch" exAwait 3 99 true).db = exAwait :=
  ⟨by decide, by decide,
    (C3_parse_failure_keeps_state exAwait 1 10 3 99 true "lunch" .NO_AMOUNT
      (by decide) (by decide)).1⟩

/-- C6: the parser splits "15.50 coffee with Alice and Bob" into the amount
15.50 (the first numeric token), the description "coffee" (the remainder
before the keyword " with ") and the participants ["Alice", "Bob"] (the
segment after it, tokenised on commas and " and "). -/
theorem C6_parse_with_participants :
    parse_expense_text "15.50 coffee with Alice and Bob"
      = .ok ⟨(1550 : Int), "coffee", ["Alice", "Bob"]⟩ := by
  decide

/-- C7: "lunch" has no token matching the decimal-amount grammar, so parsing
fails with NO_AMOUNT; "-5 tea" parses the amount -5, which is not positive,
so parsing fails with INVALID_AMOUNT. -/
theorem C7_parse_failures :
    parse_expense_text "lunch" = .failure .NO_AMOUNT
    ∧ parse_expense_text "-5 tea" = .failure .INVALID_AMOUNT := by
  decide

/-- C4 counterexample: the SQL behind get_balances has GROUP BY but no
ORDER BY, so the result is not sorted by descending total: with payer B's
transaction first in the ledger the groups come out in first-occurrence
order [(B, 700), (A, 1500)] (in cents), violating the claimed ordering. -/
theorem C4_counterexample :
    get_balances exDB_Bfirst = [("B", 700), ("A", 1500)]
    ∧ isSortedDescByTotal (get_balances exDB_Bfirst) = false := by
  decide

/-- C4 amended: get_balances returns one entry per distinct payer username
resolvable through the users table (no duplicate names, and a name appears
exactly when it appears in the join), each entry summing that payer's
amounts; the entries come in first-occurrence order of the join result (the
query has no ORDER BY), not sorted by descending total; for payer A with
amounts 10 and 5 occurring before payer B with 7 it yields the cent totals
[(A, 1500), (B, 700)]. -/
theorem C4_balances_amended :
    (∀ db : DB, ((get_balances db).map Prod.fst).Nodup)
    ∧ (∀ (db : DB) (n : String),
        n ∈ (get_balances db).map Prod.fst ↔ n ∈ (joinedRows db).map Prod.fst)
    ∧ (∀ (db : DB) (e : String × Int), e ∈ get_balances db →
        e.2 = (((joinedRows db).filter (fun q => q.1 == e.1)).map Prod.snd).sum)
    ∧ get_balances exDB_Afirst = [("A", 1500), ("B", 700)] := by
  refine ⟨?_, ?_, ?_, by decide⟩
  · intro db
    exact groupTotalsFuel_keys_nodup _ _ le_rfl
  · intro db n
    exact groupTotalsFuel_keys n _ _ le_rfl
  · intro db e he
    exact groupTotalsFuel_values _ _ e le_rfl he

theorem C4_amended_witness :
    (("A", (1500 : Int)) ∈ get_balances exDB_Afirst)
    ∧ (("A", (1500 : Int)).2
        = (((joinedRows exDB_Afirst).filter
              (fun q => q.1 == ("A", (1500 : Int)).1)).map Prod.snd).sum) :=
  ⟨by decide, C4_balances_amended.2.2.1 exDB_Afirst ("A", 1500) (by decide)⟩

end Expense
